import Mathlib

/-!
Verification of the content-downloader core against its specification.

The development shallowly embeds the two core source modules:

* `src/utils/browserPool.js` — the bounded browser-process pool
  (`MAX_BROWSERS`, `getBrowser`, `releaseBrowser`), modelled as a pure
  state-transition system over `PoolState`.  JavaScript array operations
  (`push`/`pop` at the end, `shift` at the front) are modelled by `jsPush`
  and `jsPop` on Lean lists kept in the same order as the JS arrays.

* `src/server/services/instagram.js` — the download orchestrator
  (`downloadInstagramContent`), the in-page media extractor (the
  `page.evaluate` callback), and the fallback provider
  (`downloadFallbackContent`).  The in-page extraction is modelled, as the
  spec's design notes suggest, as a pure function from a DOM snapshot (the
  `querySelectorAll` results for each selector) to a list of media
  candidates.  The orchestrator's try/catch/finally control flow is
  modelled as a function from the outcomes of the primary pipeline and the
  fallback to the returned value together with the trace of side-effect
  events in execution order.
-/

/-! ## JavaScript array/string primitives -/

/-- JS `arr.push(x)`: append at the end of the array. -/
def jsPush {α : Type} (xs : List α) (x : α) : List α := xs ++ [x]

/-- JS `arr.pop()`: remove and return the last element (`none` on an empty
array). -/
def jsPop {α : Type} (xs : List α) : Option (α × List α) :=
  match xs.getLast? with
  | none => none
  | some x => some (x, xs.dropLast)

/-- JS `a || b` on strings: the empty string is falsy. -/
def jsOr (a b : String) : String := if a = "" then b else a

/-- `needle.leadsWith hay`: the first list is a leading segment of the
second (Bool-valued, used to implement the JS substring test). -/
def leadsWith {α : Type} [DecidableEq α] : List α → List α → Bool
  | [], _ => true
  | _ :: _, [] => false
  | a :: as, b :: bs => decide (a = b) && leadsWith as bs

/-- `occursIn needle hay`: the first list occurs contiguously inside the
second. -/
def occursIn {α : Type} [DecidableEq α] (needle : List α) : List α → Bool
  | [] => leadsWith needle []
  | hd :: tl => leadsWith needle (hd :: tl) || occursIn needle tl

/-- JS `s.includes(pat)`: substring test on the character sequences. -/
def jsIncludes (s pat : String) : Bool := occursIn pat.data s.data

/-- JS `s.toLowerCase()`, character by character. -/
def jsToLower (s : String) : String := String.mk (s.data.map Char.toLower)

/-! ## Resource Pool — `src/utils/browserPool.js` -/

/-- `const MAX_BROWSERS = 2; // Limit concurrent browser instances` -/
def MAX_BROWSERS : Nat := 2

/-- The pool's module state: `browserPool` is the idle array (same order as
the JS array, `jsPush`/`jsPop` act at its end), `browserQueue` the FIFO
array of waiting requests (`jsPush` at the end, `shift` at the front).
`launchedCount` is a ghost counter of how many browser processes have been
constructed so far; the source itself keeps no such count, which is exactly
what claim C1 is about.  It doubles as the fresh id for a newly launched
handle. -/
structure PoolState where
  browserPool : List Nat
  browserQueue : List Nat
  launchedCount : Nat := 0
deriving Repr, DecidableEq

/-- Outcome of one `getBrowser()` call. -/
inductive GetBrowserResult where
  /-- `browserPool.pop()` succeeded: an idle handle is reused. -/
  | reused (browser : Nat) (s : PoolState)
  /-- the caller was appended to `browserQueue` and suspends. -/
  | queued (s : PoolState)
  /-- `launchNewBrowser()` constructed a fresh handle. -/
  | launched (browser : Nat) (s : PoolState)
deriving Repr, DecidableEq

/-- `getBrowser()` from `src/utils/browserPool.js` lines 23-39:
if the idle array is non-empty, pop and reuse its last element; otherwise,
if `browserQueue.length >= MAX_BROWSERS`, enqueue the request; otherwise
launch a new browser.  (`browserPool.length > 0` followed by `pop()` is the
`jsPop` success case.) -/
def getBrowser (reqId : Nat) (s : PoolState) : GetBrowserResult :=
  match jsPop s.browserPool with
  | some (browser, rest) => .reused browser { s with browserPool := rest }
  | none =>
    if s.browserQueue.length ≥ MAX_BROWSERS then
      .queued { s with browserQueue := jsPush s.browserQueue reqId }
    else
      .launched s.launchedCount { s with launchedCount := s.launchedCount + 1 }

/-- Outcome of one `releaseBrowser(browser)` call. -/
inductive ReleaseResult where
  /-- `browserQueue.shift()` popped `waiter`, which is handed `browser`. -/
  | toWaiter (waiter : Nat) (browser : Nat) (s : PoolState)
  /-- the handle was pushed back onto the idle array. -/
  | toPool (s : PoolState)
  /-- `browser` was falsy; the whole body is skipped. -/
  | ignored (s : PoolState)
deriving Repr, DecidableEq

/-- `releaseBrowser(browser)` from `src/utils/browserPool.js` lines 41-50:
if `browser` is truthy, hand it to the shifted head of `browserQueue` when
the queue is non-empty, else push it onto `browserPool`. -/
def releaseBrowser (browser : Option Nat) (s : PoolState) : ReleaseResult :=
  match browser with
  | none => .ignored s
  | some b =>
    match s.browserQueue with
    | nextRequester :: rest => .toWaiter nextRequester b { s with browserQueue := rest }
    | [] => .toPool { s with browserPool := jsPush s.browserPool b }

theorem jsPop_concat {α : Type} (xs : List α) (x : α) :
    jsPop (xs ++ [x]) = some (x, xs) := by
  simp [jsPop, List.getLast?_concat, List.dropLast_concat]

/-! ### Pool claim theorems -/

/-- **C1** (code bug): `getBrowser` compares the *waiter-queue length*
against `MAX_BROWSERS` instead of counting live browser instances, so it
keeps constructing new handles while the pool is empty and nobody waits.
Starting from the initial state, three consecutive `getBrowser` calls with
no intervening release each launch a fresh browser: after the second call
`launchedCount = 2 = MAX_BROWSERS` handles are live (all checked out, the
idle pool and the queue both empty), yet the third call still constructs a
new handle, giving three simultaneously live handles — contradicting the
claim (and the source's own comment "Limit concurrent browser instances")
that at most `MAX_BROWSERS` handles ever exist. -/
theorem getBrowser_exceeds_MAX_BROWSERS :
    getBrowser 0 { browserPool := [], browserQueue := [], launchedCount := 0 }
      = .launched 0 { browserPool := [], browserQueue := [], launchedCount := 1 } ∧
    getBrowser 1 { browserPool := [], browserQueue := [], launchedCount := 1 }
      = .launched 1 { browserPool := [], browserQueue := [], launchedCount := 2 } ∧
    getBrowser 2 { browserPool := [], browserQueue := [], launchedCount := 2 }
      = .launched 2 { browserPool := [], browserQueue := [], launchedCount := 3 } ∧
    MAX_BROWSERS = 2 := by
  decide

/-- **C4** (confirmed): on releasing a valid (truthy) handle, exactly one
of two things happens — if the waiter queue is non-empty, precisely its
head waiter receives the handle directly and the idle pool is unchanged;
if the queue is empty, the handle is appended to the idle pool and the
queue stays empty (no waiter is resolved).  The two cases are mutually
exclusive (the queue cannot be both empty and non-empty) and exhaustive. -/
theorem releaseBrowser_serves_head_or_idles (b : Nat) (s : PoolState) :
    (∃ w rest, s.browserQueue = w :: rest ∧
        releaseBrowser (some b) s = .toWaiter w b { s with browserQueue := rest } ∧
        ({ s with browserQueue := rest } : PoolState).browserPool = s.browserPool)
    ∨ (s.browserQueue = [] ∧
        releaseBrowser (some b) s = .toPool { s with browserPool := jsPush s.browserPool b } ∧
        ({ s with browserPool := jsPush s.browserPool b } : PoolState).browserQueue
          = s.browserQueue) := by
  cases hq : s.browserQueue with
  | nil =>
    right
    refine ⟨rfl, ?_, rfl⟩
    simp [releaseBrowser, hq]
  | cons w rest =>
    left
    refine ⟨w, rest, rfl, ?_, rfl⟩
    simp [releaseBrowser, hq]

theorem releaseBrowser_serves_head_or_idles_witness :
    (∃ w rest, ([5] : List Nat) = w :: rest ∧
        releaseBrowser (some 1) { browserPool := [2], browserQueue := [5], launchedCount := 0 }
          = .toWaiter w 1 { browserPool := [2], browserQueue := rest, launchedCount := 0 } ∧
        ({ browserPool := [2], browserQueue := rest, launchedCount := 0 } :
            PoolState).browserPool = [2])
    ∨ (([5] : List Nat) = [] ∧
        releaseBrowser (some 1) { browserPool := [2], browserQueue := [5], launchedCount := 0 }
          = .toPool { browserPool := jsPush [2] 1, browserQueue := [5], launchedCount := 0 } ∧
        ({ browserPool := jsPush [2] 1, browserQueue := [5], launchedCount := 0 } :
            PoolState).browserQueue = [5]) :=
  releaseBrowser_serves_head_or_idles 1
    { browserPool := [2], browserQueue := [5], launchedCount := 0 }

/-- **C5** (counterexample): the source has no double-release guard.
Releasing handle `0` into a pool whose queue holds waiter `7` hands the
handle to that waiter; releasing the *same* handle again is not rejected —
it is silently pushed onto the idle pool, so handle `0` is now owned both
by waiter `7` and by the idle pool, refuting the claim that a second
release is rejected as an invariant violation. -/
theorem releaseBrowser_double_release_cex :
    releaseBrowser (some 0) { browserPool := [], browserQueue := [7], launchedCount := 1 }
      = .toWaiter 7 0 { browserPool := [], browserQueue := [], launchedCount := 1 } ∧
    releaseBrowser (some 0) { browserPool := [], browserQueue := [], launchedCount := 1 }
      = .toPool { browserPool := [0], browserQueue := [], launchedCount := 1 } := by
  decide

/-- **C5** (amended): calling `releaseBrowser` twice with the same handle
duplicates it rather than rejecting the second call: with exactly one
waiter queued, the first release hands the handle to that waiter and the
second release appends the very same handle to the idle pool, so the
handle ends up with two simultaneous owners. -/
theorem releaseBrowser_double_release_duplicates (b w : Nat) (s : PoolState)
    (h : s.browserQueue = [w]) :
    releaseBrowser (some b) s = .toWaiter w b { s with browserQueue := [] } ∧
    releaseBrowser (some b) { s with browserQueue := ([] : List Nat) }
      = .toPool { s with browserQueue := [], browserPool := jsPush s.browserPool b } := by
  constructor
  · simp [releaseBrowser, h]
  · simp [releaseBrowser]

theorem releaseBrowser_double_release_witness :
    releaseBrowser (some 0) { browserPool := [], browserQueue := [7], launchedCount := 0 }
      = .toWaiter 7 0 { browserPool := [], browserQueue := [], launchedCount := 0 } ∧
    releaseBrowser (some 0) { browserPool := [], browserQueue := [], launchedCount := 0 }
      = .toPool { browserPool := [0], browserQueue := [], launchedCount := 0 } :=
  releaseBrowser_double_release_duplicates 0 7
    { browserPool := [], browserQueue := [7], launchedCount := 0 } rfl

/-- **C9** (confirmed): LIFO round-trip.  Whenever a release lands a handle
in the idle pool (which happens exactly when the waiter queue is empty),
the very next `getBrowser` call pops that most-recently-released handle
and returns it immediately. -/
theorem getBrowser_after_release_lifo (b reqId : Nat) (s t : PoolState)
    (hrel : releaseBrowser (some b) s = .toPool t) :
    getBrowser reqId t = .reused b { t with browserPool := t.browserPool.dropLast } := by
  cases hq : s.browserQueue with
  | cons w rest =>
    rw [releaseBrowser, hq] at hrel
    exact absurd hrel (by simp)
  | nil =>
    rw [releaseBrowser, hq] at hrel
    injection hrel with ht
    subst ht
    simp [getBrowser, jsPush, jsPop_concat, List.dropLast_concat]

theorem getBrowser_after_release_lifo_witness :
    getBrowser 9 { browserPool := [5], browserQueue := [], launchedCount := 1 }
      = .reused 5 { browserPool := [], browserQueue := [], launchedCount := 1 } :=
  getBrowser_after_release_lifo 5 9
    { browserPool := [], browserQueue := [], launchedCount := 1 }
    { browserPool := [5], browserQueue := [], launchedCount := 1 } rfl

/-! ## Media Extractor — the `page.evaluate` callback in
`src/server/services/instagram.js` lines 86-123

Per the spec's design notes, the in-page DOM evaluation is modelled as a
pure function from a DOM snapshot to the list of media candidates.  A
snapshot records, for each CSS selector, the element list that
`document.querySelectorAll` would return for it. -/

/-- One matched DOM element, with the attributes the extractor reads.
`src` is the resolved `el.src` property, `srcAttr` the raw
`el.getAttribute('src')`, `content` the meta-tag `el.content`, `property`
the meta-tag `property` attribute; the empty string stands for a
missing/empty value (falsy in JS). -/
structure Elem where
  tagName : String
  src : String := ""
  srcAttr : String := ""
  content : String := ""
  property : String := ""
  naturalWidth : Nat := 0
  naturalHeight : Nat := 0
deriving Repr, DecidableEq

/-- A DOM snapshot: the `querySelectorAll` result for each selector
(selectors absent from the list match no elements). -/
abbrev DOM := List (String × List Elem)

/-- `document.querySelectorAll(selector)` against a snapshot. -/
def querySelectorAll (dom : DOM) (selector : String) : List Elem :=
  ((dom.find? (fun p => p.1 == selector)).map Prod.snd).getD []

/-- The ordered selector list from lines 91-98 of the source. -/
def selectors : List String :=
  [ "article img[srcset]"
  , "article video[src]"
  , "main img[src*=\"scontent\"]"
  , "main video[src*=\"scontent\"]"
  , "meta[property=\"og:image\"]"
  , "meta[property=\"og:video\"]" ]

/-- An extracted media candidate: `{ url, type }` as pushed on line 111. -/
structure MediaCandidate where
  url : String
  type : String
deriving Repr, DecidableEq

/-- `src.split('?')[0]`: everything before the first `?` (the whole string
when no `?` occurs). -/
def stripQuery (s : String) : String := String.mk (s.data.takeWhile (fun c => c != '?'))

/-- `el.src || el.getAttribute('src') || el.content` (line 102). -/
def resolveSrc (el : Elem) : String := jsOr el.src (jsOr el.srcAttr el.content)

/-- The candidate kind from line 113:
`el.tagName.toLowerCase() === 'video' || el.getAttribute('property') === 'og:video'
 ? 'video' : 'image'`. -/
def mediaTypeOf (el : Elem) : String :=
  if jsToLower el.tagName == "video" || el.property == "og:video" then "video" else "image"

/-- The `isThumbnail` heuristic from line 109. -/
def isThumbnailElem (el : Elem) : Bool :=
  jsToLower el.tagName == "img"
    && (decide (el.naturalWidth < 300) || decide (el.naturalHeight < 300))

/-- The body of the inner `forEach` (lines 101-119): resolve the source,
strip the query string, keep only URLs containing `scontent` or
`instagram.com`, drop small `img` thumbnails, and de-duplicate via the
`foundSources` set.  The accumulator pairs the `media` array with the
`foundSources` set (kept as an insertion-ordered list). -/
def processElement (acc : List MediaCandidate × List String) (el : Elem) :
    List MediaCandidate × List String :=
  let src0 := resolveSrc el
  if src0 = "" then acc
  else
    let src := stripQuery src0
    if jsIncludes src "scontent" || jsIncludes src "instagram.com" then
      if isThumbnailElem el = false ∧ src ∉ acc.2 then
        (acc.1 ++ [{ url := src, type := mediaTypeOf el }], acc.2 ++ [src])
      else acc
    else acc

/-- The two nested `forEach` loops over `selectors` and the query results,
starting from the empty `media` array and empty `foundSources` set. -/
def extractFold (dom : DOM) : List MediaCandidate × List String :=
  selectors.foldl (fun acc sel => (querySelectorAll dom sel).foldl processElement acc) ([], [])

/-- The value returned by the `page.evaluate` callback: the `media`
array. -/
def extractMedia (dom : DOM) : List MediaCandidate := (extractFold dom).1

/-! ### Extractor invariant -/

/-- Invariant of the extraction fold: the recorded urls are exactly the
`foundSources` set (in order), that set has no duplicates, and every
recorded url passed the `scontent`/`instagram.com` substring filter. -/
def ExtractInv (acc : List MediaCandidate × List String) : Prop :=
  acc.1.map MediaCandidate.url = acc.2 ∧ acc.2.Nodup ∧
    ∀ c ∈ acc.1, (jsIncludes c.url "scontent" || jsIncludes c.url "instagram.com") = true

theorem extractInv_processElement (el : Elem)
    {acc : List MediaCandidate × List String} (h : ExtractInv acc) :
    ExtractInv (processElement acc el) := by
  obtain ⟨h1, h2, h3⟩ := h
  simp only [processElement]
  split
  · exact ⟨h1, h2, h3⟩
  · split
    · split
      · rename_i hin hnew
        refine ⟨?_, ?_, ?_⟩
        · simp [h1]
        · refine List.Nodup.append h2 (List.nodup_singleton _) ?_
          intro a ha hb
          rw [List.mem_singleton] at hb
          subst hb
          exact hnew.2 ha
        · intro c hc
          rcases List.mem_append.mp hc with hold | hnewmem
          · exact h3 c hold
          · rw [List.mem_singleton] at hnewmem
            subst hnewmem
            exact hin
      · exact ⟨h1, h2, h3⟩
    · exact ⟨h1, h2, h3⟩

theorem extractInv_elems_foldl (els : List Elem)
    {acc : List MediaCandidate × List String} (h : ExtractInv acc) :
    ExtractInv (els.foldl processElement acc) := by
  induction els generalizing acc with
  | nil => exact h
  | cons e tl ih => exact ih (extractInv_processElement e h)

theorem extractInv_selectors_foldl (sels : List String) (dom : DOM)
    {acc : List MediaCandidate × List String} (h : ExtractInv acc) :
    ExtractInv (sels.foldl
      (fun acc sel => (querySelectorAll dom sel).foldl processElement acc) acc) := by
  induction sels generalizing acc with
  | nil => exact h
  | cons s tl ih => exact ih (extractInv_elems_foldl _ h)

theorem extractInv_extractFold (dom : DOM) : ExtractInv (extractFold dom) :=
  extractInv_selectors_foldl selectors dom ⟨rfl, List.nodup_nil, by simp⟩

/-! ### Extractor claim theorems -/

/-- Two `article img[srcset]` elements whose URLs differ only in the query
string (the spec's duplicate-element boundary case). -/
def elDup1 : Elem :=
  { tagName := "img", src := "https://scontent.example/img.jpg?a=1"
  , naturalWidth := 800, naturalHeight := 600 }

def elDup2 : Elem :=
  { tagName := "img", src := "https://scontent.example/img.jpg?b=2"
  , naturalWidth := 800, naturalHeight := 600 }

def domQueryDup : DOM := [("article img[srcset]", [elDup1, elDup2])]

/-- **C6** (confirmed): the extractor normalizes every candidate URL by
stripping everything from the first `?` before de-duplicating, so (i) the
returned candidate URLs are always pairwise distinct, (ii) two matched
elements whose URLs differ only in the query string produce exactly one
candidate carrying the normalized URL, the query stripped (shown on the
concrete snapshot `domQueryDup`, with `stripQuery` behaving as described),
and (iii) a DOM on which every selector matches nothing yields the empty
list — extraction is a total function, it cannot throw. -/
theorem extractMedia_normalizes_dedups_and_empty :
    (∀ dom : DOM, ((extractMedia dom).map MediaCandidate.url).Nodup)
    ∧ extractMedia domQueryDup
        = [{ url := "https://scontent.example/img.jpg", type := "image" }]
    ∧ stripQuery "https://scontent.example/img.jpg?a=1" = "https://scontent.example/img.jpg"
    ∧ (∀ dom : DOM,
        (∀ sel ∈ selectors, querySelectorAll dom sel = []) → extractMedia dom = []) := by
  refine ⟨?_, by decide, by decide, ?_⟩
  · intro dom
    obtain ⟨h1, h2, _⟩ := extractInv_extractFold dom
    rw [extractMedia, h1]
    exact h2
  · intro dom h
    have q1 := h "article img[srcset]" (by simp [selectors])
    have q2 := h "article video[src]" (by simp [selectors])
    have q3 := h "main img[src*=\"scontent\"]" (by simp [selectors])
    have q4 := h "main video[src*=\"scontent\"]" (by simp [selectors])
    have q5 := h "meta[property=\"og:image\"]" (by simp [selectors])
    have q6 := h "meta[property=\"og:video\"]" (by simp [selectors])
    simp [extractMedia, extractFold, selectors, q1, q2, q3, q4, q5, q6]

theorem extractMedia_empty_witness : extractMedia [] = [] :=
  extractMedia_normalizes_dedups_and_empty.2.2.2 [] (fun _ _ => rfl)

/-! ### C7: host allowlist vs substring filter

The spec claims acceptance is decided by the URL's *host* component.  The
source (line 107) tests `src.includes('scontent') ||
src.includes('instagram.com')` — a substring check over the whole URL.  To
state the spec's claim, the host component and the spec-side allowlist are
defined here from the spec's words; the source never computes a host. -/

/-- The host component of a URL: the characters after the first `://` and
before the following `/`.  Defined only to state claim C7's spec-side
predicate; the source has no such computation. -/
def hostChars : List Char → List Char
  | ':' :: '/' :: '/' :: rest => rest.takeWhile (fun c => c != '/')
  | _ :: rest => hostChars rest
  | [] => []

def urlHost (u : String) : String := String.mk (hostChars u.data)

/-- The spec-side acceptance predicate of claim C7: accept only URLs whose
host matches a known Instagram content-delivery domain (an `scontent` CDN
host, or `instagram.com` itself, possibly with the `www` label). -/
def specHostAllowed (u : String) : Bool :=
  jsIncludes (urlHost u) "scontent"
    || urlHost u == "instagram.com" || urlHost u == "www.instagram.com"

/-- A large image hosted on `evil.example` whose *path* merely contains the
allowlisted domain name. -/
def elEvil : Elem :=
  { tagName := "img", src := "https://evil.example/instagram.com/pic.jpg"
  , naturalWidth := 800, naturalHeight := 600 }

def domEvil : DOM := [("article img[srcset]", [elEvil])]

/-- **C7** (counterexample): the extractor accepts a URL whose host
(`evil.example`) is outside the platform's content-delivery domains,
because the source filters by a substring test over the whole URL and the
path contains `instagram.com`.  This refutes the claim that every URL
whose host is outside the allowlist is rejected. -/
theorem extractMedia_accepts_nonallowlisted_host :
    extractMedia domEvil
      = [{ url := "https://evil.example/instagram.com/pic.jpg", type := "image" }] ∧
    urlHost "https://evil.example/instagram.com/pic.jpg" = "evil.example" ∧
    specHostAllowed "https://evil.example/instagram.com/pic.jpg" = false := by
  decide

/-- **C7** (amended): a candidate URL is accepted only if the URL — as a
whole string, not its host component — contains `scontent` or
`instagram.com` as a substring; URLs containing an allowlisted domain name
outside the host are therefore accepted too. -/
theorem extractMedia_accepted_only_if_substring (dom : DOM) (c : MediaCandidate)
    (hc : c ∈ extractMedia dom) :
    (jsIncludes c.url "scontent" || jsIncludes c.url "instagram.com") = true :=
  (extractInv_extractFold dom).2.2 c hc

theorem extractMedia_substring_witness :
    (jsIncludes "https://evil.example/instagram.com/pic.jpg" "scontent"
      || jsIncludes "https://evil.example/instagram.com/pic.jpg" "instagram.com") = true :=
  extractMedia_accepted_only_if_substring domEvil
    { url := "https://evil.example/instagram.com/pic.jpg", type := "image" } (by decide)

/-! ## Manifests, Fallback Provider and Orchestrator —
`src/server/services/instagram.js` -/

/-- The manifest object returned to the caller (lines 165-173 and
252-261).  `size` holds the already-formatted human-readable label; the
label formatting itself (`formatFileSize`, floating-point `Math.log`) is
kept abstract by passing the label in. -/
structure Manifest where
  success : Bool
  downloadUrl : String
  filename : String
  contentType : String
  size : String
  localPath : String
  thumbnail : Option String
  note : Option String := none
deriving Repr, DecidableEq

/-- The success manifest of the primary pipeline (lines 130-134 and
165-173), as a function of the first extracted candidate, the requested
content type, the generated uuid, the formatted size label and the
downloads directory. -/
def primaryManifest (media : MediaCandidate) (contentType uuid size downloadsDir : String) :
    Manifest :=
  let fileExtension := if media.type = "video" then "mp4" else "jpg"
  let filename := "instagram_" ++ contentType ++ "_" ++ uuid ++ "." ++ fileExtension
  { success := true
  , downloadUrl := "http://localhost:3001/downloads/" ++ filename
  , filename := filename
  , contentType := media.type
  , size := size
  , localPath := downloadsDir ++ "/" ++ filename
  , thumbnail := if media.type = "image"
                 then some ("http://localhost:3001/downloads/" ++ filename) else none
  , note := none }

/-- Line 222: `contentType === 'reel' || contentType === 'story' ||
contentType === 'video'`. -/
def fallbackIsVideo (contentType : String) : Bool :=
  contentType == "reel" || contentType == "story" || contentType == "video"

/-- The two-entry `sampleUrls` table (lines 217-220), looked up by media
type; only the keys `image` and `video` are ever used. -/
def sampleUrls (mediaType : String) : String :=
  if mediaType = "video" then "https://sample-videos.com/zip/10/mp4/SampleVideo_1280x720_1mb.mp4"
  else "https://picsum.photos/800/600"

/-- The URL of the substitute asset fetched for a given requested content
type (the `sampleUrls[mediaType]` lookup on line 232). -/
def fallbackSourceUrl (contentType : String) : String :=
  sampleUrls (if fallbackIsVideo contentType then "video" else "image")

/-- `downloadFallbackContent(contentType, downloadsDir, platform)`
(lines 215-261): the manifest returned on its successful path, as a
function of its arguments plus the generated uuid and the formatted size
label.  Its failure path (a rethrown `Fallback download failed` error) is
modelled by the fallback outcome fed to `downloadInstagramContentRun`. -/
def downloadFallbackContent (contentType downloadsDir platform uuid size : String) : Manifest :=
  let isVideo := fallbackIsVideo contentType
  let mediaType := if isVideo then "video" else "image"
  let fileExtension := if isVideo then "mp4" else "jpg"
  let filename := platform ++ "_" ++ contentType ++ "_fallback_" ++ uuid ++ "." ++ fileExtension
  { success := true
  , downloadUrl := "http://localhost:3001/downloads/" ++ filename
  , filename := filename
  , contentType := mediaType
  , size := size
  , localPath := downloadsDir ++ "/" ++ filename
  , thumbnail := if mediaType = "image"
                 then some ("http://localhost:3001/downloads/" ++ filename) else none
  , note := some "Fallback content - real social media content may be difficult to scrape." }

/-- The spread `{ ...fallbackResult, note: 'Primary download failed: ...' }`
on lines 195-198. -/
def addNote (m : Manifest) (errMsg : String) : Manifest :=
  { m with note := some ("Primary download failed: " ++ errMsg ++ ". Serving fallback content.") }

/-- Side-effect events of one `downloadInstagramContent` run, in execution
order. -/
inductive Ev where
  /-- `getBrowser()` (line 23): the browser handle is checked out. -/
  | getBrowserEv
  /-- the primary pipeline runs (navigate, extract, fetch). -/
  | primaryEv
  /-- `downloadFallbackContent(...)` runs (line 193), inside the catch
  block. -/
  | fallbackEv
  /-- `page.close()` in the finally block (line 206). -/
  | pageCloseEv
  /-- `releaseBrowser(browserInstance)` in the finally block (line 209). -/
  | releaseBrowserEv
deriving Repr, DecidableEq

/-- The orchestrator `downloadInstagramContent` (lines 15-212), abstracted
over the outcome of the primary pipeline (everything inside the `try`
after acquisition — navigation, extraction, fetch; `.error` carries the
thrown message) and the outcome of the fallback download.  Returns the
produced value (`.ok` manifest or `.error` thrown message) together with
the trace of events in execution order.  JS `finally` runs after the `try`
or `catch` body completes, so `pageCloseEv` and `releaseBrowserEv` are
always the last two events — in particular the fallback (inside `catch`)
runs *before* the browser is released. -/
def downloadInstagramContentRun (primary fallback : Except String Manifest) :
    Except String Manifest × List Ev :=
  match primary with
  | .ok m => (.ok m, [.getBrowserEv, .primaryEv, .pageCloseEv, .releaseBrowserEv])
  | .error e =>
    match fallback with
    | .ok fallbackResult =>
      (.ok (addNote fallbackResult e),
       [.getBrowserEv, .primaryEv, .fallbackEv, .pageCloseEv, .releaseBrowserEv])
    | .error _fallbackError =>
      (.error ("Failed to download content from Instagram or provide fallback: " ++ e),
       [.getBrowserEv, .primaryEv, .fallbackEv, .pageCloseEv, .releaseBrowserEv])

/-- A concrete fallback manifest used by concrete runs. -/
def sampleFallbackManifest : Manifest :=
  downloadFallbackContent "post" "downloads" "instagram" "u0" "25.46 KB"

/-! ### Orchestrator claim theorems -/

/-- **C2** (counterexample): on a failing primary pipeline the fallback
runs *while the browser is still checked out*: in the event trace of a run
whose navigation failed and whose fallback succeeded, `fallbackEv` occurs
strictly before `releaseBrowserEv` (release only happens in the `finally`
block, after the catch block has completed).  This refutes the claim that
the handle is released before the Fallback Provider begins executing. -/
theorem fallback_runs_before_release_cex :
    Ev.fallbackEv
        ∈ (downloadInstagramContentRun (.error "navigation timeout of 45000 ms exceeded")
            (.ok sampleFallbackManifest)).2 ∧
    Ev.releaseBrowserEv
        ∈ (downloadInstagramContentRun (.error "navigation timeout of 45000 ms exceeded")
            (.ok sampleFallbackManifest)).2 ∧
    ((downloadInstagramContentRun (.error "navigation timeout of 45000 ms exceeded")
        (.ok sampleFallbackManifest)).2.indexOf Ev.fallbackEv
      < (downloadInstagramContentRun (.error "navigation timeout of 45000 ms exceeded")
        (.ok sampleFallbackManifest)).2.indexOf Ev.releaseBrowserEv) := by
  decide

/-- **C2** (amended): the handle is not released before the fallback; it
is released exactly once per request, as the final action of the run (the
`finally` block), on every path — primary success, fallback success and
fallback failure alike.  The fallback therefore executes while the handle
is still checked out, and the handle is never leaked. -/
theorem releaseBrowser_last_event (primary fallback : Except String Manifest) :
    (downloadInstagramContentRun primary fallback).2.count Ev.releaseBrowserEv = 1 ∧
    (downloadInstagramContentRun primary fallback).2.getLast? = some Ev.releaseBrowserEv := by
  cases primary with
  | ok m => exact ⟨rfl, rfl⟩
  | error e =>
    cases fallback with
    | ok fm => exact ⟨rfl, rfl⟩
    | error fe => exact ⟨rfl, rfl⟩

theorem releaseBrowser_last_event_witness :
    (downloadInstagramContentRun (.error "E") (.ok sampleFallbackManifest)).2.count
        Ev.releaseBrowserEv = 1 ∧
    (downloadInstagramContentRun (.error "E") (.ok sampleFallbackManifest)).2.getLast?
        = some Ev.releaseBrowserEv :=
  releaseBrowser_last_event (.error "E") (.ok sampleFallbackManifest)

/-- **C3** (counterexample): when the primary pipeline fails with message
`E1QZV` and the fallback fails with message `E2WQX`, the single error
surfaced to the caller contains the original reason but *not* the fallback
reason — line 201 interpolates only `error.message`; `fallbackError` is
logged, never surfaced.  This refutes the claim that both failure reasons
are carried by the surfaced error. -/
theorem double_failure_message_cex :
    (downloadInstagramContentRun (.error "E1QZV") (.error "E2WQX")).1
      = .error "Failed to download content from Instagram or provide fallback: E1QZV" ∧
    jsIncludes "Failed to download content from Instagram or provide fallback: E1QZV" "E1QZV"
      = true ∧
    jsIncludes "Failed to download content from Instagram or provide fallback: E1QZV" "E2WQX"
      = false :=
  ⟨congrArg Except.error (by decide), by decide, by decide⟩

/-- **C3** (amended): when both the primary pipeline and the fallback
fail, the surfaced error message is exactly the fixed prefix followed by
the *original* failure reason; the fallback failure reason is logged but
not part of the surfaced error. -/
theorem double_failure_message (e1 e2 : String) :
    (downloadInstagramContentRun (.error e1) (.error e2)).1
      = .error ("Failed to download content from Instagram or provide fallback: " ++ e1) := rfl

theorem double_failure_message_witness :
    (downloadInstagramContentRun (.error "A") (.error "B")).1
      = .error ("Failed to download content from Instagram or provide fallback: " ++ "A") :=
  double_failure_message "A" "B"

/-- The random-choice reading of claim C8: for the `post` content type the
fallback provider can also deliver the video substitute (for some run).
In the source the substitute kind is a pure function of the content type —
there is no randomness source in `downloadFallbackContent` — so this is
refuted below. -/
def fallbackPostCanBeVideo : Prop :=
  ∃ downloadsDir platform uuid size,
    (downloadFallbackContent "post" downloadsDir platform uuid size).contentType = "video"

/-- **C8** (counterexample): the fallback provider never chooses randomly:
the substitute kind for `post` is always `image` (and for `story` always
`video`), whatever the other arguments are, because line 222 computes the
kind deterministically from the content type alone.  This refutes the
claim that post/story types randomly choose between image and video. -/
theorem fallback_no_random_choice_cex : ¬ fallbackPostCanBeVideo := by
  rintro ⟨d, p, u, sz, h⟩
  have him : (downloadFallbackContent "post" d p u sz).contentType = "image" := rfl
  rw [him] at h
  exact absurd h (by decide)

/-- **C8** (amended): the substitute asset is chosen deterministically
from the requested content type: `reel`, `story` (and the literal
`video`) receive the sample video, every other type — `post`, `highlight`
included — receives the sample image; no random choice occurs. -/
theorem fallback_type_mapping (ct downloadsDir platform uuid size : String) :
    ((downloadFallbackContent ct downloadsDir platform uuid size).contentType
      = if ct = "reel" ∨ ct = "story" ∨ ct = "video" then "video" else "image") ∧
    (fallbackSourceUrl ct
      = if ct = "reel" ∨ ct = "story" ∨ ct = "video"
        then "https://sample-videos.com/zip/10/mp4/SampleVideo_1280x720_1mb.mp4"
        else "https://picsum.photos/800/600") := by
  have hiv : fallbackIsVideo ct = true ↔ (ct = "reel" ∨ ct = "story" ∨ ct = "video") := by
    simp [fallbackIsVideo, Bool.or_eq_true, beq_iff_eq, or_assoc]
  by_cases h : ct = "reel" ∨ ct = "story" ∨ ct = "video"
  · have hv : fallbackIsVideo ct = true := hiv.mpr h
    rw [if_pos h, if_pos h]
    constructor
    · simp [downloadFallbackContent, hv]
    · show sampleUrls (if fallbackIsVideo ct then "video" else "image") = _
      rw [hv]
      rfl
  · have hf : fallbackIsVideo ct = false := by
      cases hb : fallbackIsVideo ct with
      | false => rfl
      | true => exact absurd (hiv.mp hb) h
    rw [if_neg h, if_neg h]
    constructor
    · simp [downloadFallbackContent, hf]
    · show sampleUrls (if fallbackIsVideo ct then "video" else "image") = _
      rw [hf]
      rfl

theorem fallback_type_mapping_witness :
    ((downloadFallbackContent "reel" "downloads" "instagram" "u" "1 KB").contentType
      = "video") ∧
    (fallbackSourceUrl "reel"
      = "https://sample-videos.com/zip/10/mp4/SampleVideo_1280x720_1mb.mp4") :=
  fallback_type_mapping "reel" "downloads" "instagram" "u" "1 KB"

/-- **C10** (confirmed): in both manifest builders the thumbnail is
populated exactly when the manifest's content kind is `image`, and then it
equals the served download URL; video (and any non-image) manifests carry
`null`.  The orchestrator's note attachment on the recovered-fallback path
changes none of these fields. -/
theorem manifest_thumbnail_iff_image (media : MediaCandidate)
    (ct uuid size downloadsDir fct fdir fplatform fuuid fsize : String)
    (m : Manifest) (err : String) :
    ((primaryManifest media ct uuid size downloadsDir).thumbnail
      = if (primaryManifest media ct uuid size downloadsDir).contentType = "image"
        then some (primaryManifest media ct uuid size downloadsDir).downloadUrl else none) ∧
    ((downloadFallbackContent fct fdir fplatform fuuid fsize).thumbnail
      = if (downloadFallbackContent fct fdir fplatform fuuid fsize).contentType = "image"
        then some (downloadFallbackContent fct fdir fplatform fuuid fsize).downloadUrl
        else none) ∧
    ((addNote m err).thumbnail = m.thumbnail
      ∧ (addNote m err).contentType = m.contentType
      ∧ (addNote m err).downloadUrl = m.downloadUrl) := by
  refine ⟨?_, ?_, rfl, rfl, rfl⟩
  · by_cases h : media.type = "image" <;> simp [primaryManifest, h]
  · cases hb : fallbackIsVideo fct <;> simp [downloadFallbackContent, hb]

theorem manifest_thumbnail_witness :
    ((primaryManifest { url := "https://scontent.example/a.jpg", type := "image" }
        "post" "u" "1 KB" "downloads").thumbnail
      = if (primaryManifest { url := "https://scontent.example/a.jpg", type := "image" }
            "post" "u" "1 KB" "downloads").contentType = "image"
        then some ((primaryManifest { url := "https://scontent.example/a.jpg", type := "image" }
            "post" "u" "1 KB" "downloads").downloadUrl) else none) ∧
    ((downloadFallbackContent "story" "downloads" "instagram" "u" "1 KB").thumbnail
      = if (downloadFallbackContent "story" "downloads" "instagram" "u" "1 KB").contentType
            = "image"
        then some ((downloadFallbackContent "story" "downloads" "instagram" "u" "1 KB").downloadUrl)
        else none) ∧
    ((addNote sampleFallbackManifest "e").thumbnail = sampleFallbackManifest.thumbnail
      ∧ (addNote sampleFallbackManifest "e").contentType = sampleFallbackManifest.contentType
      ∧ (addNote sampleFallbackManifest "e").downloadUrl = sampleFallbackManifest.downloadUrl) :=
  manifest_thumbnail_iff_image { url := "https://scontent.example/a.jpg", type := "image" }
    "post" "u" "1 KB" "downloads" "story" "downloads" "instagram" "u" "1 KB"
    sampleFallbackManifest "e"
